import Mathlib

/-!
Verification of the multi-stage eligibility assessment pipeline of the
social-support-agent repository.

Part 1 embeds `scripts/ai_processor.py` (class `AIProcessor`): the six
factor scorers, the per-category processing rules, the weighted final
score, and the score-to-recommendation mapping.  Python floats are
modelled as exact rationals (`ℚ`); all the constants appearing in the
source are exactly representable.  The random variance added to the
final score (`random.uniform(-3, 3)`) is modelled as an explicit
parameter, so that fixing it to `0` gives the deterministic test mode
described by the specification.
-/

namespace AIProc

/-- Embedding of `AIProcessor._calculate_income_score`. -/
def calculateIncomeScore (salary threshold : ℚ) : ℚ :=
  if salary = 0 then 25
  else if salary ≤ threshold * 0.5 then 25
  else if salary ≤ threshold then 20 - salary / threshold * 5
  else if salary ≤ threshold * 1.5 then 15 - (salary / threshold - 1) * 15
  else max 0 (5 - (salary / threshold - 1.5) * 2)

/-- Embedding of `AIProcessor._calculate_family_score`.  `family_size` and
`dependents` are Python ints; the dependency-ratio branch divides them as
rationals exactly as Python division of ints yields a float. -/
def calculateFamilyScore (familySize dependents : ℤ) : ℚ :=
  let base : ℤ := min (dependents * 3) 15
  let base : ℤ :=
    if familySize > 6 then base + 5
    else if familySize > 4 then base + 3
    else base
  let base : ℚ :=
    if familySize > 0 then
      if (dependents : ℚ) / (familySize : ℚ) > 0.7 then (base : ℚ) + 5
      else if (dependents : ℚ) / (familySize : ℚ) > 0.5 then (base : ℚ) + 3
      else (base : ℚ)
    else (base : ℚ)
  min base 25

/-- Embedding of `AIProcessor._calculate_employment_score`. -/
def calculateEmploymentScore (status : String) (experience : ℤ) : ℚ :=
  let base : ℚ :=
    if status = "Unemployed" then 25
    else if status = "Retired" then 20
    else if status = "Self-Employed" then 15
    else if status = "Employed" then 5
    else 10
  if status = "Self-Employed" ∧ experience > 5 then base + 5
  else if status = "Employed" ∧ experience < 2 then base + 5
  else base

/-- Embedding of `AIProcessor._calculate_urgency_score`. -/
def calculateUrgencyScore (urgency : String) : ℚ :=
  if urgency = "low" then 5
  else if urgency = "medium" then 10
  else if urgency = "high" then 18
  else if urgency = "critical" then 25
  else 5

/-- Embedding of `AIProcessor._calculate_amount_score`. -/
def calculateAmountScore (requested maxAmount : ℚ) : ℚ :=
  if requested > maxAmount then -15
  else if requested > maxAmount * 0.8 then -8
  else if requested > maxAmount * 0.5 then -3
  else 0

/-- Embedding of `AIProcessor._calculate_nationality_score`. -/
def calculateNationalityScore (nationality : String) : ℚ :=
  if nationality = "UAE" then 5 else 0

/-- One entry of `AIProcessor.processing_rules`. -/
structure ProcessingRules where
  maxAmount : ℚ
  incomeThreshold : ℚ
  approvalRate : ℚ
  wIncome : ℚ
  wFamily : ℚ
  wUrgency : ℚ
  wEmployment : ℚ
  deriving DecidableEq

/-- `processing_rules["emergency_support"]`. -/
def emergencySupportRules : ProcessingRules :=
  { maxAmount := 50000, incomeThreshold := 15000, approvalRate := 0.75,
    wIncome := 0.3, wFamily := 0.25, wUrgency := 0.25, wEmployment := 0.2 }

/-- `processing_rules["financial_assistance"]`. -/
def financialAssistanceRules : ProcessingRules :=
  { maxAmount := 40000, incomeThreshold := 20000, approvalRate := 0.65,
    wIncome := 0.35, wFamily := 0.2, wUrgency := 0.2, wEmployment := 0.25 }

/-- `processing_rules["economic_enablement"]`. -/
def economicEnablementRules : ProcessingRules :=
  { maxAmount := 45000, incomeThreshold := 25000, approvalRate := 0.8,
    wIncome := 0.25, wFamily := 0.15, wUrgency := 0.15, wEmployment := 0.45 }

/-- `processing_rules["career_development"]`. -/
def careerDevelopmentRules : ProcessingRules :=
  { maxAmount := 35000, incomeThreshold := 30000, approvalRate := 0.85,
    wIncome := 0.2, wFamily := 0.1, wUrgency := 0.1, wEmployment := 0.6 }

/-- `processing_rules["both"]`. -/
def bothRules : ProcessingRules :=
  { maxAmount := 50000, incomeThreshold := 20000, approvalRate := 0.7,
    wIncome := 0.3, wFamily := 0.2, wUrgency := 0.2, wEmployment := 0.3 }

/-- `self.processing_rules.get(support_type, self.processing_rules["emergency_support"])`:
dictionary lookup with the emergency entry as the default. -/
def rulesFor (supportType : String) : ProcessingRules :=
  if supportType = "emergency_support" then emergencySupportRules
  else if supportType = "financial_assistance" then financialAssistanceRules
  else if supportType = "economic_enablement" then economicEnablementRules
  else if supportType = "career_development" then careerDevelopmentRules
  else if supportType = "both" then bothRules
  else emergencySupportRules

/-- The recognized keys of `AIProcessor.processing_rules`. -/
def processingRuleKeys : List String :=
  ["emergency_support", "financial_assistance", "economic_enablement",
   "career_development", "both"]

/-- A score-to-recommendation threshold profile of
`AIProcessor._determine_recommendation`. -/
structure Thresholds where
  approve : ℚ
  conditional : ℚ
  documents : ℚ
  assess : ℚ
  deriving DecidableEq

/-- The threshold-profile selection inside `_determine_recommendation`
(the if/elif/else on `support_type`). -/
def thresholdsFor (supportType : String) : Thresholds :=
  if supportType = "career_development" then
    { approve := 70, conditional := 55, documents := 40, assess := 30 }
  else if supportType = "emergency_support" then
    { approve := 75, conditional := 60, documents := 45, assess := 35 }
  else
    { approve := 72, conditional := 58, documents := 42, assess := 32 }

/-- The emergency threshold profile (the `support_type == 'emergency_support'`
branch of `_determine_recommendation`). -/
def emergencyThresholds : Thresholds :=
  { approve := 75, conditional := 60, documents := 45, assess := 35 }

/-- The default threshold profile (the `else` branch of
`_determine_recommendation`). -/
def defaultThresholds : Thresholds :=
  { approve := 72, conditional := 58, documents := 42, assess := 32 }

/-- The threshold cascade at the end of `_determine_recommendation`. -/
def recommendFromThresholds (t : Thresholds) (score : ℚ) : String :=
  if score ≥ t.approve then "Approved"
  else if score ≥ t.conditional then "Conditional Approval"
  else if score ≥ t.documents then "Documents Required"
  else if score ≥ t.assess then "Assessment"
  else if score ≥ 25 then "Under Review"
  else "Declined"

/-- Embedding of `AIProcessor._determine_recommendation`. -/
def determineRecommendation (score : ℚ) (supportType : String) : String :=
  recommendFromThresholds (thresholdsFor supportType) score

/-- The recommendation tiers, ordered from worst to best as in the
specification: Declined < Under Review < Assessment < Documents Required
< Conditional Approval < Approved. -/
def recommendationTier (r : String) : ℕ :=
  if r = "Declined" then 0
  else if r = "Under Review" then 1
  else if r = "Assessment" then 2
  else if r = "Documents Required" then 3
  else if r = "Conditional Approval" then 4
  else 5

/-- The input fields of `AIProcessor.assess_eligibility` (the fields it
extracts from `personal_info`, `employment_info` and `support_request`). -/
structure Application where
  familySize : ℤ
  dependents : ℤ
  monthlySalary : ℚ
  yearsExperience : ℤ
  employmentStatus : String
  supportType : String
  amountRequested : ℚ
  urgencyLevel : String
  nationality : String

/-- The weighted score of `assess_eligibility` (factor scores combined with
the category weight map). -/
def assessWeightedScore (app : Application) : ℚ :=
  let rules := rulesFor app.supportType
  calculateIncomeScore app.monthlySalary rules.incomeThreshold * rules.wIncome +
  calculateFamilyScore app.familySize app.dependents * rules.wFamily +
  calculateEmploymentScore app.employmentStatus app.yearsExperience * rules.wEmployment +
  calculateUrgencyScore app.urgencyLevel * rules.wUrgency

/-- The final score of `assess_eligibility`: weighted score plus the amount
and nationality modifiers plus the variance term, clamped to [0, 100].
`variance` stands for `random.uniform(-3, 3)`; the deterministic test mode
fixes it to 0. -/
def assessFinalScore (app : Application) (variance : ℚ) : ℚ :=
  let rules := rulesFor app.supportType
  let finalScore := assessWeightedScore app +
    calculateAmountScore app.amountRequested rules.maxAmount +
    calculateNationalityScore app.nationality + variance
  max 0 (min 100 finalScore)

/-- The recommendation computed by `assess_eligibility` from the clamped
final score. -/
def assessRecommendation (app : Application) (variance : ℚ) : String :=
  determineRecommendation (assessFinalScore app variance) app.supportType

/-- Scenario A of the specification: salary 0, family of 4 with 2
dependents, unemployed, emergency support, high urgency, 15000 requested.
`nationality` is the designated citizen string, which in the source is
the literal `'UAE'` (`_calculate_nationality_score`). -/
def scenarioA : Application :=
  { familySize := 4, dependents := 2, monthlySalary := 0, yearsExperience := 5,
    employmentStatus := "Unemployed", supportType := "emergency_support",
    amountRequested := 15000, urgencyLevel := "high", nationality := "UAE" }

/-- An application whose support category is not a key of
`processing_rules`; every factor score is at its maximum and the
nationality bonus applies, so the final score with variance 3 is 33. -/
def unrecognizedCategoryApp : Application :=
  { familySize := 10, dependents := 9, monthlySalary := 0, yearsExperience := 0,
    employmentStatus := "Unemployed", supportType := "housing_support",
    amountRequested := 0, urgencyLevel := "critical", nationality := "UAE" }

end AIProc

/-!
Part 2 embeds the agent pipeline: `DocumentProcessorAgent._rule_based_result`
(the fields the orchestrator consumes), `FinancialAnalyzerAgent`
(rule-based assessment, LLM-payload validation and merge), and
`OrchestratorAgent` (document-completeness gate, document-failure
handling, and final decision synthesis).

The enrichment collaborator (`llm_analyze`) is a network-bound external
service; its possible observable outcomes at the stage boundary are
modelled as a sum type (`CollabOutcome`): unavailable client, raised
exception, a non-dict return value, or a dict payload whose `success`
field may be true or false.  The career stage's output is threaded
through the pipeline as data (its internal training-program tables are
not consulted by any claim); the pipeline trace records whether the
financial and career stages were invoked.
-/

namespace Pipeline

/-- `settings.REQUIRED_DOCUMENT_TYPES` from `src/config/settings.py`. -/
def requiredDocumentTypes : List String :=
  ["emirates_id", "bank_statement", "utility_bill"]

/-- Python `str.lower()` as used on document-type tags: character-wise
ASCII lowering over the string's character list. -/
def pyLower (s : String) : String := String.mk (s.data.map Char.toLower)

/-- One entry of the `documents` list consumed by
`DocumentProcessorAgent._rule_based_result` (only the fields it reads). -/
structure DocInput where
  documentType : Option String
  status : Option String

/-- The fields of the document stage's output dict that the orchestrator's
completeness gate reads. -/
structure DocResults where
  success : Bool
  documentsProcessed : List String
  documentsValid : Bool

/-- The submitted document types as collected by the `for doc in documents`
loop of `DocumentProcessorAgent._rule_based_result`: a falsy (absent or
empty) `document_type` is skipped, the rest are lowercased.  This is the
`processed_docs` list before the empty-set fallback. -/
def submittedTypes (docs : List DocInput) : List String :=
  docs.filterMap (fun d =>
    match d.documentType with
    | none => none
    | some s => if s = "" then none else some (pyLower s))

/-- Embedding of `DocumentProcessorAgent._rule_based_result`, restricted to
the fields the orchestrator consumes (`success`, `documents_processed`,
`documents_valid`).  `sorted(set(...))` is modelled by `dedup` (membership
is what every consumer uses; Python's sorted order is not reproduced); an
empty processed set falls back to `["emirates_id", "bank_statement"]` via
Python's `or` (line 80); `documents_valid = bool(processed_docs)`. -/
def documentRuleBasedResult (docs : List DocInput) : DocResults :=
  let processedDocs : List String := submittedTypes docs
  let processedSet : List String :=
    if processedDocs.dedup = [] then ["emirates_id", "bank_statement"]
    else processedDocs.dedup
  { success := true,
    documentsProcessed := processedSet,
    documentsValid := !processedDocs.isEmpty }

/-- `missing_docs = list(required_docs - processed_docs)` computed by
`OrchestratorAgent.process` (lines 50-53).  The set difference is
represented as a list in the fixed order of the required list; Python's
set iteration order is unspecified, and every consumer is
membership-based. -/
def missingDocumentsOf (processed : List String) : List String :=
  requiredDocumentTypes.filter (fun d => !(processed.contains d))

/-- The fields of the financial stage's output dict
(`FinancialAnalyzerAgent._rule_based_assessment`, possibly merged with an
LLM payload). `support_duration_months` and `analysis_reasoning` exist only
after a merge that supplied them, hence `Option`. -/
structure FinResult where
  success : Bool
  eligibilityScore : ℤ
  decisionRecommendation : String
  recommendedSupportAmount : ℚ
  riskLevel : String
  riskFactors : List String
  emirate : String
  incomeCategory : String
  supportDurationMonths : Option ℤ
  analysisReasoning : Option String
  analysisSource : String

/-- `FinancialAnalyzerAgent.uae_thresholds` entries. -/
structure EmirateThresholds where
  low : ℚ
  medium : ℚ
  high : ℚ

/-- `self.uae_thresholds.get(emirate, self.uae_thresholds["dubai"])`. -/
def uaeThresholdsFor (emirate : String) : EmirateThresholds :=
  if emirate = "dubai" then { low := 5000, medium := 15000, high := 25000 }
  else if emirate = "abu_dhabi" then { low := 4500, medium := 14000, high := 23000 }
  else if emirate = "sharjah" then { low := 4000, medium := 12000, high := 20000 }
  else { low := 5000, medium := 15000, high := 25000 }

/-- Embedding of `FinancialAnalyzerAgent._calculate_eligibility_score`. -/
def calculateEligibilityScore (emirate : String) (monthlySalary : ℚ)
    (familySize : ℤ) (employmentStatus : String) : ℤ :=
  let thresholds := uaeThresholdsFor emirate
  let score : ℤ :=
    (if monthlySalary ≤ thresholds.low then 40
     else if monthlySalary ≤ thresholds.medium then 30
     else 20) +
    (if familySize ≥ 5 then 30
     else if familySize ≥ 3 then 20
     else 10) +
    (if employmentStatus = "employed" then 30
     else if employmentStatus = "self_employed" then 20
     else 30)
  min score 100

/-- Embedding of `FinancialAnalyzerAgent._categorize_income`. -/
def categorizeIncome (emirate : String) (monthlySalary : ℚ) : String :=
  let thresholds := uaeThresholdsFor emirate
  if monthlySalary ≤ thresholds.low then "low_income"
  else if monthlySalary ≤ thresholds.medium then "medium_income"
  else "high_income"

/-- Embedding of `FinancialAnalyzerAgent._identify_risk_factors`. -/
def identifyRiskFactors (monthlySalary : ℚ) (familySize : ℤ) : List String :=
  (if monthlySalary = 0 then ["No current income"]
   else if monthlySalary < 3000 then ["Very low income level"]
   else []) ++
  (if familySize > 5 then ["Large family size"] else [])

/-- The application fields the financial stage reads (extracted in
`FinancialAnalyzerAgent.process` with the dict-get defaults already
applied). -/
structure PipelineInput where
  emirate : String
  monthlySalary : ℚ
  familySize : ℤ
  employmentStatus : String
  amountRequested : ℚ

/-- Embedding of `FinancialAnalyzerAgent._rule_based_assessment`. -/
def ruleBasedAssessment (inp : PipelineInput) : FinResult :=
  let eligibilityScore := calculateEligibilityScore inp.emirate inp.monthlySalary
    inp.familySize inp.employmentStatus
  let recommendation :=
    if eligibilityScore ≥ 80 then "approve"
    else if eligibilityScore ≥ 60 then "conditional_approve"
    else if eligibilityScore ≥ 40 then "review_required"
    else "soft_decline"
  let riskLevel :=
    if eligibilityScore ≥ 80 then "low"
    else if eligibilityScore ≥ 60 then "medium"
    else if eligibilityScore ≥ 40 then "medium"
    else "high"
  let recommendedAmount :=
    if recommendation ≠ "soft_decline" then
      min inp.amountRequested (inp.monthlySalary * 6)
    else 0
  { success := true,
    eligibilityScore := eligibilityScore,
    decisionRecommendation := recommendation,
    recommendedSupportAmount := recommendedAmount,
    riskLevel := riskLevel,
    riskFactors := identifyRiskFactors inp.monthlySalary inp.familySize,
    emirate := inp.emirate,
    incomeCategory := categorizeIncome inp.emirate inp.monthlySalary,
    supportDurationMonths := none,
    analysisReasoning := none,
    analysisSource := "rule_based" }

/-- A dict payload returned by the enrichment collaborator for the
financial stage: the `success` flag plus the fields
`_merge_llm_assessment` reads with dict-get (absent keys are `none`). -/
structure LLMFinPayload where
  success : Bool
  eligibilityScore : Option ℤ
  decisionRecommendation : Option String
  recommendedSupportAmount : Option ℚ
  riskLevel : Option String
  riskFactors : Option (List String)
  supportDurationMonths : Option ℤ
  analysisReasoning : Option String

/-- The observable outcomes of a call to the enrichment collaborator at
the financial stage boundary. -/
inductive CollabOutcome where
  | unavailable : CollabOutcome
  | raised : CollabOutcome
  | nonDict : CollabOutcome
  | payload : LLMFinPayload → CollabOutcome

/-- Embedding of `FinancialAnalyzerAgent._analyze_with_llm`'s result
validation: any exception is caught and yields `None`; a non-dict value
or a dict without a truthy `success` yields `None`; only a dict with a
truthy `success` is returned. -/
def analyzeWithLLM (collab : CollabOutcome) : Option LLMFinPayload :=
  match collab with
  | .unavailable => none
  | .raised => none
  | .nonDict => none
  | .payload p => if p.success then some p else none

/-- Embedding of `FinancialAnalyzerAgent._merge_llm_assessment`: each
listed field is overwritten by the payload's value when present, else the
baseline's value is kept; `support_duration_months` and
`analysis_reasoning` are copied only when present; `analysis_source`
becomes `"llm"`. -/
def mergeLLMAssessment (baseline : FinResult) (p : LLMFinPayload) : FinResult :=
  { baseline with
    eligibilityScore := p.eligibilityScore.getD baseline.eligibilityScore,
    decisionRecommendation := p.decisionRecommendation.getD baseline.decisionRecommendation,
    recommendedSupportAmount := p.recommendedSupportAmount.getD baseline.recommendedSupportAmount,
    riskLevel := p.riskLevel.getD baseline.riskLevel,
    riskFactors := p.riskFactors.getD baseline.riskFactors,
    supportDurationMonths :=
      match p.supportDurationMonths with
      | some d => some d
      | none => baseline.supportDurationMonths,
    analysisReasoning :=
      match p.analysisReasoning with
      | some r => some r
      | none => baseline.analysisReasoning,
    analysisSource := "llm" }

/-- Embedding of `FinancialAnalyzerAgent.process`: compute the rule-based
baseline, then overwrite with the collaborator payload only when the
collaborator is available and its payload validates. -/
def financialProcess (inp : PipelineInput) (collab : CollabOutcome) : FinResult :=
  let baseline := ruleBasedAssessment inp
  match analyzeWithLLM collab with
  | none => baseline
  | some p => mergeLLMAssessment baseline p

/-- The career stage's output fields that `OrchestratorAgent` consumes:
`enablement_plan.training_recommendations` and
`enablement_plan.job_opportunities` (with the dict-get defaults already
applied). -/
structure CareerResult where
  trainingRecommendations : List String
  jobOpportunities : List String

/-- The `financial_support` block of a final decision. -/
structure FinancialSupport where
  approvedAmount : ℚ
  durationMonths : ℤ

/-- The `economic_enablement` block of a final decision. -/
structure EconomicEnablement where
  trainingPrograms : List String
  jobMatching : List String

/-- The final-decision dict.  `_handle_document_failure` produces a dict
without the `financial_support` and `economic_enablement` keys and with a
`missing_documents` key; `_make_final_decision` produces the converse;
`Option` records key presence. -/
structure FinalDecision where
  status : String
  decision : Option String
  missingDocuments : Option (List String)
  financialSupport : Option FinancialSupport
  economicEnablement : Option EconomicEnablement
  nextSteps : List String

/-- The approved amount a consumer reads out of a final decision:
`final_decision.get("financial_support", {}).get("approved_amount", 0)`,
exactly as the repository's consumers do (`src/ui/multimodal_app.py`
lines 1028-1029). -/
def FinalDecision.approvedAmountValue (d : FinalDecision) : ℚ :=
  match d.financialSupport with
  | some fs => fs.approvedAmount
  | none => 0

/-- `final_decision.get("financial_support", {}).get("duration_months", 0)`. -/
def FinalDecision.durationMonthsValue (d : FinalDecision) : ℤ :=
  match d.financialSupport with
  | some fs => fs.durationMonths
  | none => 0

/-- Embedding of `OrchestratorAgent._generate_next_steps`. -/
def generateNextSteps (decisionStatus : String) : List String :=
  if decisionStatus = "approved" then
    ["Support disbursement", "Training enrollment", "Progress monitoring"]
  else if decisionStatus = "conditional_approval" then
    ["Complete requirements", "Attend counseling", "Begin training"]
  else
    ["Case worker review", "Additional information", "Alternative programs"]

/-- Embedding of the final decision built by
`OrchestratorAgent._handle_document_failure`. -/
def handleDocumentFailure (missing : List String) : FinalDecision :=
  { status := "documents_required",
    decision := some "incomplete_application",
    missingDocuments := some missing,
    financialSupport := none,
    economicEnablement := none,
    nextSteps := ["Upload missing documents", "Ensure quality", "Resubmit"] }

/-- Embedding of `OrchestratorAgent._make_final_decision`. -/
def makeFinalDecision (financial : FinResult) (career : CareerResult) : FinalDecision :=
  let financialScore := financial.eligibilityScore
  let financialRecommendation := financial.decisionRecommendation
  let statusAmount : String × ℚ :=
    if financialRecommendation = "approve" ∧ financialScore ≥ 75 then
      ("approved", financial.recommendedSupportAmount)
    else if financialRecommendation = "conditional_approve" ∧ financialScore ≥ 50 then
      ("conditional_approval", financial.recommendedSupportAmount * 0.7)
    else
      ("review_required", 0)
  let decisionStatus := statusAmount.1
  let supportAmount := statusAmount.2
  { status := decisionStatus,
    decision := none,
    missingDocuments := none,
    financialSupport := some
      { approvedAmount := supportAmount,
        durationMonths := if supportAmount > 0 then 6 else 0 },
    economicEnablement := some
      { trainingPrograms := career.trainingRecommendations,
        jobMatching := career.jobOpportunities },
    nextSteps := generateNextSteps decisionStatus }

/-- One pipeline run's outcome: the final decision plus a record of which
downstream stages were invoked. -/
structure PipelineTrace where
  finalDecision : FinalDecision
  financialInvoked : Bool
  careerInvoked : Bool

/-- The document-completeness gate of `OrchestratorAgent.process`
(line 55): the run short-circuits when `success` is falsy, or
`documents_valid` is falsy, or the missing list is non-empty. -/
def documentStageFails (docResults : DocResults) : Prop :=
  docResults.success = false ∨ docResults.documentsValid = false ∨
    missingDocumentsOf docResults.documentsProcessed ≠ []

instance (docResults : DocResults) : Decidable (documentStageFails docResults) := by
  unfold documentStageFails; infer_instance

/-- Embedding of `OrchestratorAgent.process` downstream of the document
stage: the completeness gate, then (unless short-circuited) the financial
stage, the career stage, and the decision synthesis.  `docResults` is the
document stage's output; `career` is the career stage's output (its
internals are not consulted by any claim). -/
def orchestratorFromDoc (docResults : DocResults) (inp : PipelineInput)
    (collab : CollabOutcome) (career : CareerResult) : PipelineTrace :=
  let missing := missingDocumentsOf docResults.documentsProcessed
  if documentStageFails docResults then
    { finalDecision := handleDocumentFailure missing,
      financialInvoked := false,
      careerInvoked := false }
  else
    let financialResults := financialProcess inp collab
    { finalDecision := makeFinalDecision financialResults career,
      financialInvoked := true,
      careerInvoked := true }

/-- The full pipeline with the document stage's rule-based result (document
enrichment disabled), as exercised by the completeness claims. -/
def pipelineRun (docs : List DocInput) (inp : PipelineInput)
    (collab : CollabOutcome) (career : CareerResult) : PipelineTrace :=
  orchestratorFromDoc (documentRuleBasedResult docs) inp collab career

/-- A concrete career-stage output used to instantiate theorems. -/
def sampleCareerResult : CareerResult :=
  { trainingRecommendations := ["Data Analysis Bootcamp"],
    jobOpportunities := ["Digital Marketing Specialist"] }

/-- A concrete application input used to instantiate theorems: zero salary,
family of 4, 10000 requested. -/
def samplePipelineInput : PipelineInput :=
  { emirate := "dubai", monthlySalary := 0, familySize := 4,
    employmentStatus := "unemployed", amountRequested := 10000 }

/-- A concrete financial-stage output meeting the approval conditions of
`_make_final_decision`. -/
def sampleApprovedFinancial : FinResult :=
  { success := true, eligibilityScore := 80, decisionRecommendation := "approve",
    recommendedSupportAmount := 12000, riskLevel := "low", riskFactors := [],
    emirate := "dubai", incomeCategory := "low_income",
    supportDurationMonths := none, analysisReasoning := none,
    analysisSource := "rule_based" }

/-- A document-stage output with only `emirates_id` processed, so
`bank_statement` and `utility_bill` are missing. -/
def incompleteDocResults : DocResults :=
  { success := true, documentsProcessed := ["emirates_id"], documentsValid := true }

/-- A complete submitted document set (with one mixed-case type tag,
exercising the `.lower()` normalization). -/
def sampleDocs : List DocInput :=
  [{ documentType := some "Emirates_ID", status := some "processed" },
   { documentType := some "bank_statement", status := some "processed" },
   { documentType := some "utility_bill", status := some "processed" }]

end Pipeline

/-! ## Theorems -/

namespace AIProc

/-- Claim C5: for every salary ≥ 0 and threshold > 0, `incomeScore` returns
25 when the salary is 0 or at most half the threshold; `20 - (salary/threshold)*5`
between half the threshold and the threshold; `15 - (salary/threshold - 1)*15`
between the threshold and 1.5 times it; `max 0 (5 - (salary/threshold - 1.5)*2)`
above that; and the result always lies in [0, 25]. -/
theorem calculateIncomeScore_spec (salary threshold : ℚ)
    (hs : 0 ≤ salary) (ht : 0 < threshold) :
    (salary = 0 ∨ salary ≤ 0.5 * threshold →
      calculateIncomeScore salary threshold = 25) ∧
    (0.5 * threshold < salary → salary ≤ threshold →
      calculateIncomeScore salary threshold = 20 - salary / threshold * 5) ∧
    (threshold < salary → salary ≤ 1.5 * threshold →
      calculateIncomeScore salary threshold = 15 - (salary / threshold - 1) * 15) ∧
    (1.5 * threshold < salary →
      calculateIncomeScore salary threshold = max 0 (5 - (salary / threshold - 1.5) * 2)) ∧
    0 ≤ calculateIncomeScore salary threshold ∧
    calculateIncomeScore salary threshold ≤ 25 := by
  have hd0 : 0 ≤ salary / threshold := div_nonneg hs ht.le
  refine ⟨?_, ?_, ?_, ?_, ?_, ?_⟩
  · intro h
    unfold calculateIncomeScore
    split_ifs <;> rcases h with h | h <;> first | rfl | linarith
  · intro hl hu
    unfold calculateIncomeScore
    split_ifs <;> first | rfl | linarith
  · intro hl hu
    unfold calculateIncomeScore
    split_ifs <;> first | rfl | linarith
  · intro hl
    unfold calculateIncomeScore
    split_ifs <;> first | rfl | linarith
  · unfold calculateIncomeScore
    split_ifs with h0 h1 h2 h3
    · norm_num
    · norm_num
    · have hd1 : salary / threshold ≤ 1 := (div_le_one ht).mpr h2
      linarith
    · have hd15 : salary / threshold ≤ 1.5 := by
        rw [div_le_iff₀ ht]; linarith
      linarith
    · exact le_max_left 0 _
  · unfold calculateIncomeScore
    split_ifs with h0 h1 h2 h3
    · norm_num
    · norm_num
    · linarith
    · have hd1 : 1 ≤ salary / threshold := (one_le_div ht).mpr (by linarith)
      linarith
    · refine max_le (by norm_num) ?_
      linarith

/-- Witness for C5 at salary 3, threshold 4 (the middle linear branch). -/
theorem calculateIncomeScore_spec_witness :
    calculateIncomeScore 3 4 = 20 - 3 / 4 * 5 ∧
    0 ≤ calculateIncomeScore 3 4 ∧ calculateIncomeScore 3 4 ≤ 25 := by
  have h := calculateIncomeScore_spec 3 4 (by norm_num) (by norm_num)
  exact ⟨h.2.1 (by norm_num) (by norm_num), h.2.2.2.2.1, h.2.2.2.2.2⟩

/-- The threshold cascade of `_determine_recommendation` is tier-monotone
for any threshold profile: each condition is upward closed in the score and
the branch outputs are listed in strictly decreasing tier order. -/
theorem recommendFromThresholds_tier_mono (t : Thresholds) {s1 s2 : ℚ}
    (h : s2 ≤ s1) :
    recommendationTier (recommendFromThresholds t s2) ≤
      recommendationTier (recommendFromThresholds t s1) := by
  unfold recommendFromThresholds
  split_ifs <;> simp [recommendationTier] <;> linarith

/-- Claim C6: for a fixed support category, a strictly higher final score
never yields a strictly lower recommendation tier (ordering the tiers
Declined < Under Review < Assessment < Documents Required <
Conditional Approval < Approved). -/
theorem determineRecommendation_tier_mono (supportType : String) (s1 s2 : ℚ)
    (h : s2 < s1) :
    recommendationTier (determineRecommendation s2 supportType) ≤
      recommendationTier (determineRecommendation s1 supportType) := by
  unfold determineRecommendation
  exact recommendFromThresholds_tier_mono (thresholdsFor supportType) h.le

/-- Witness for C6 on the career profile: score 10 maps to a tier at most
that of score 80. -/
theorem determineRecommendation_tier_mono_witness :
    recommendationTier (determineRecommendation 10 "career_development") ≤
      recommendationTier (determineRecommendation 80 "career_development") :=
  determineRecommendation_tier_mono "career_development" 80 10 (by norm_num)

/-- Counterexample to claim C7 as stated: for an application with the
unrecognized category "housing_support" and variance 3, the final score is
33 and the code maps it to "Assessment" (default profile, assess = 32),
whereas the emergency threshold profile {75, 60, 45, 35} claimed by the
spec would map 33 to "Under Review". -/
theorem unrecognized_category_counterexample :
    assessFinalScore unrecognizedCategoryApp 3 = 33 ∧
    assessRecommendation unrecognizedCategoryApp 3 = "Assessment" ∧
    recommendFromThresholds emergencyThresholds 33 = "Under Review" := by
  refine ⟨?_, ?_, ?_⟩ <;>
    simp [assessRecommendation, determineRecommendation, recommendFromThresholds,
      thresholdsFor, emergencyThresholds, assessFinalScore, assessWeightedScore,
      unrecognizedCategoryApp, rulesFor, emergencySupportRules,
      calculateIncomeScore, calculateFamilyScore, calculateEmploymentScore,
      calculateUrgencyScore, calculateAmountScore, calculateNationalityScore] <;>
    norm_num

/-- Claim C7 (amended): for every application whose support category is
unrecognized, the factor scores are computed with the emergency category's
rule profile (max_amount, income_threshold, weights) — the final score
equals that of the same application labelled "emergency_support" — but the
score-to-recommendation mapping uses the default threshold profile
{72, 58, 42, 32}, not the emergency profile. -/
theorem unrecognized_category_spec (app : Application) (v : ℚ)
    (h : app.supportType ∉ processingRuleKeys) :
    rulesFor app.supportType = emergencySupportRules ∧
    thresholdsFor app.supportType = defaultThresholds ∧
    assessFinalScore app v =
      assessFinalScore { app with supportType := "emergency_support" } v ∧
    assessRecommendation app v =
      recommendFromThresholds defaultThresholds (assessFinalScore app v) := by
  simp only [processingRuleKeys, List.mem_cons, List.not_mem_nil, or_false] at h
  push_neg at h
  obtain ⟨h1, h2, h3, h4, h5⟩ := h
  refine ⟨?_, ?_, ?_, ?_⟩
  · simp [rulesFor, h1, h2, h3, h4, h5]
  · simp [thresholdsFor, h4, h1, defaultThresholds]
  · simp [assessFinalScore, assessWeightedScore, rulesFor, h1, h2, h3, h4, h5]
  · simp [assessRecommendation, determineRecommendation, thresholdsFor, h4, h1,
      defaultThresholds]

/-- Witness for the amended C7 at the concrete category "housing_support". -/
theorem unrecognized_category_spec_witness :
    rulesFor "housing_support" = emergencySupportRules ∧
    thresholdsFor "housing_support" = defaultThresholds := by
  have h := unrecognized_category_spec unrecognizedCategoryApp 3 (by decide)
  exact ⟨h.1, h.2.1⟩

/-- Counterexample to claim C8 as stated: at Scenario A the family score is
6, not 9 (the dependency ratio 2/4 = 0.5 is not strictly greater than 0.5,
so no +3 bonus), hence the weighted score is not 19.25 and the final score
is not 24.25. -/
theorem scenarioA_counterexample :
    calculateFamilyScore 4 2 ≠ 9 ∧
    assessWeightedScore scenarioA ≠ 19.25 ∧
    assessFinalScore scenarioA 0 ≠ 24.25 := by
  refine ⟨?_, ?_, ?_⟩ <;>
    simp [assessFinalScore, assessWeightedScore, scenarioA, rulesFor,
      emergencySupportRules, calculateIncomeScore, calculateFamilyScore,
      calculateEmploymentScore, calculateUrgencyScore, calculateAmountScore,
      calculateNationalityScore] <;>
    norm_num

/-- Claim C8 (amended): at Scenario A (salary 0, family 4, dependents 2,
Unemployed, citizen nationality "UAE", emergency category, high urgency,
15000 requested of max 50000, variance 0) the factor scores are income 25,
family 6, employment 25, urgency 18, amount penalty 0, nationality bonus 5;
the weighted score is 18.5; the final score is 23.5; and the
recommendation is "Declined". -/
theorem scenarioA_assessment :
    calculateIncomeScore 0 15000 = 25 ∧
    calculateFamilyScore 4 2 = 6 ∧
    calculateEmploymentScore "Unemployed" 5 = 25 ∧
    calculateUrgencyScore "high" = 18 ∧
    calculateAmountScore 15000 50000 = 0 ∧
    calculateNationalityScore "UAE" = 5 ∧
    assessWeightedScore scenarioA = 18.5 ∧
    assessFinalScore scenarioA 0 = 23.5 ∧
    assessRecommendation scenarioA 0 = "Declined" := by
  refine ⟨?_, ?_, ?_, ?_, ?_, ?_, ?_, ?_, ?_⟩ <;>
    simp [assessRecommendation, determineRecommendation, recommendFromThresholds,
      thresholdsFor, assessFinalScore, assessWeightedScore, scenarioA, rulesFor,
      emergencySupportRules, calculateIncomeScore, calculateFamilyScore,
      calculateEmploymentScore, calculateUrgencyScore, calculateAmountScore,
      calculateNationalityScore] <;>
    norm_num

end AIProc

namespace Pipeline

/-- The income, family and employment components of
`_calculate_eligibility_score` contribute at least 20 + 10 + 20 and at most
40 + 30 + 30 points, so the capped score lies in [50, 100]. -/
theorem calculateEligibilityScore_bounds (emirate : String) (monthlySalary : ℚ)
    (familySize : ℤ) (employmentStatus : String) :
    50 ≤ calculateEligibilityScore emirate monthlySalary familySize employmentStatus ∧
    calculateEligibilityScore emirate monthlySalary familySize employmentStatus ≤ 100 := by
  unfold calculateEligibilityScore
  dsimp only
  split_ifs <;> constructor <;> omega

/-- The rule-based recommended support amount always equals
`min(amount_requested, monthly_salary * 6)`: the `soft_decline` branch is
unreachable because the eligibility score is at least 50 ≥ 40. -/
theorem ruleBasedAssessment_amount_eq (inp : PipelineInput) :
    (ruleBasedAssessment inp).recommendedSupportAmount =
      min inp.amountRequested (inp.monthlySalary * 6) := by
  have h := calculateEligibilityScore_bounds inp.emirate inp.monthlySalary
    inp.familySize inp.employmentStatus
  set s := calculateEligibilityScore inp.emirate inp.monthlySalary
    inp.familySize inp.employmentStatus with hs
  have hamt : (ruleBasedAssessment inp).recommendedSupportAmount =
      (if (if s ≥ 80 then "approve"
           else if s ≥ 60 then "conditional_approve"
           else if s ≥ 40 then "review_required"
           else "soft_decline") ≠ "soft_decline" then
        min inp.amountRequested (inp.monthlySalary * 6)
       else 0) := rfl
  rw [hamt]
  split_ifs <;> simp_all <;> omega

/-- Claim C9: for every input, the rule-based financial assessment's
eligibility score lies in [50, 100]; consequently its recommendation is
never "soft_decline", its risk level is never "high", and its recommended
support amount always equals `min(amount_requested, monthly_salary * 6)`. -/
theorem ruleBasedAssessment_safety (inp : PipelineInput) :
    50 ≤ (ruleBasedAssessment inp).eligibilityScore ∧
    (ruleBasedAssessment inp).eligibilityScore ≤ 100 ∧
    (ruleBasedAssessment inp).decisionRecommendation ≠ "soft_decline" ∧
    (ruleBasedAssessment inp).riskLevel ≠ "high" ∧
    (ruleBasedAssessment inp).recommendedSupportAmount =
      min inp.amountRequested (inp.monthlySalary * 6) := by
  have h := calculateEligibilityScore_bounds inp.emirate inp.monthlySalary
    inp.familySize inp.employmentStatus
  set s := calculateEligibilityScore inp.emirate inp.monthlySalary
    inp.familySize inp.employmentStatus with hs
  have hrec : (ruleBasedAssessment inp).decisionRecommendation =
      (if s ≥ 80 then "approve"
       else if s ≥ 60 then "conditional_approve"
       else if s ≥ 40 then "review_required"
       else "soft_decline") := rfl
  have hrisk : (ruleBasedAssessment inp).riskLevel =
      (if s ≥ 80 then "low"
       else if s ≥ 60 then "medium"
       else if s ≥ 40 then "medium"
       else "high") := rfl
  refine ⟨h.1, h.2, ?_, ?_, ruleBasedAssessment_amount_eq inp⟩
  · rw [hrec]
    split_ifs <;> simp <;> omega
  · rw [hrisk]
    split_ifs <;> simp <;> omega

/-- Claim C3: the decision synthesizer returns status "approved" with the
financial stage's recommended amount when its recommendation is "approve"
and its score is at least 75; status "conditional_approval" with 0.7 times
the recommended amount when the recommendation is "conditional_approve"
and the score is at least 50; otherwise status "review_required" with
amount 0; and the duration is 6 months exactly when the approved amount is
positive, else 0. -/
theorem makeFinalDecision_spec (financial : FinResult) (career : CareerResult) :
    (financial.decisionRecommendation = "approve" ∧ 75 ≤ financial.eligibilityScore →
      (makeFinalDecision financial career).status = "approved" ∧
      (makeFinalDecision financial career).approvedAmountValue =
        financial.recommendedSupportAmount) ∧
    (financial.decisionRecommendation = "conditional_approve" ∧ 50 ≤ financial.eligibilityScore →
      (makeFinalDecision financial career).status = "conditional_approval" ∧
      (makeFinalDecision financial career).approvedAmountValue =
        financial.recommendedSupportAmount * 0.7) ∧
    (¬(financial.decisionRecommendation = "approve" ∧ 75 ≤ financial.eligibilityScore) →
      ¬(financial.decisionRecommendation = "conditional_approve" ∧ 50 ≤ financial.eligibilityScore) →
      (makeFinalDecision financial career).status = "review_required" ∧
      (makeFinalDecision financial career).approvedAmountValue = 0) ∧
    ((makeFinalDecision financial career).durationMonthsValue =
      if 0 < (makeFinalDecision financial career).approvedAmountValue then 6 else 0) := by
  refine ⟨?_, ?_, ?_, ?_⟩
  · rintro ⟨hr, hsc⟩
    constructor <;>
      simp [makeFinalDecision, FinalDecision.approvedAmountValue, hr, hsc]
  · rintro ⟨hr, hsc⟩
    constructor <;>
      simp [makeFinalDecision, FinalDecision.approvedAmountValue, hr, hsc]
  · intro h1 h2
    constructor <;>
      simp only [makeFinalDecision, FinalDecision.approvedAmountValue] <;>
      split_ifs with hc1 hc2 <;>
      first
        | rfl
        | exact absurd hc1 h1
        | exact absurd hc2 h2
  · simp only [makeFinalDecision, FinalDecision.durationMonthsValue,
      FinalDecision.approvedAmountValue]

/-- Witness for C3 at a financial result with recommendation "approve" and
score 80: the decision is "approved" with amount 12000. -/
theorem makeFinalDecision_spec_witness :
    (makeFinalDecision sampleApprovedFinancial sampleCareerResult).status = "approved" ∧
    (makeFinalDecision sampleApprovedFinancial sampleCareerResult).approvedAmountValue = 12000 :=
  (makeFinalDecision_spec sampleApprovedFinancial sampleCareerResult).1
    ⟨rfl, by norm_num [sampleApprovedFinancial]⟩

/-- Claim C4: if the enrichment collaborator raises, returns a non-dict
value, or returns a dict without a truthy success indicator, the financial
stage returns the rule-based baseline unmodified — its output is never
absent due to collaborator failure. -/
theorem financialProcess_collab_failure (inp : PipelineInput) (collab : CollabOutcome)
    (h : collab = CollabOutcome.raised ∨ collab = CollabOutcome.nonDict ∨
      ∃ p, collab = CollabOutcome.payload p ∧ p.success = false) :
    financialProcess inp collab = ruleBasedAssessment inp := by
  rcases h with h | h | ⟨p, h, hsucc⟩ <;> subst h
  · rfl
  · rfl
  · simp [financialProcess, analyzeWithLLM, hsucc]

/-- Witness for C4: a raising collaborator leaves the baseline unmodified. -/
theorem financialProcess_collab_failure_witness :
    financialProcess samplePipelineInput CollabOutcome.raised =
      ruleBasedAssessment samplePipelineInput :=
  financialProcess_collab_failure samplePipelineInput CollabOutcome.raised (Or.inl rfl)

/-- Claim C1: whenever the document completeness stage fails, the final
decision has status "documents_required", its approved amount reads as 0
(the decision carries no `financial_support` block, and every consumer
reads the amount with a get-default of 0), it includes the
missing-document list, and neither the financial nor the career stage is
invoked. -/
theorem document_failure_decision (docResults : DocResults) (inp : PipelineInput)
    (collab : CollabOutcome) (career : CareerResult)
    (h : documentStageFails docResults) :
    (orchestratorFromDoc docResults inp collab career).finalDecision.status =
      "documents_required" ∧
    (orchestratorFromDoc docResults inp collab career).finalDecision.approvedAmountValue = 0 ∧
    (orchestratorFromDoc docResults inp collab career).finalDecision.missingDocuments =
      some (missingDocumentsOf docResults.documentsProcessed) ∧
    (orchestratorFromDoc docResults inp collab career).financialInvoked = false ∧
    (orchestratorFromDoc docResults inp collab career).careerInvoked = false := by
  unfold orchestratorFromDoc
  rw [if_pos h]
  exact ⟨rfl, rfl, rfl, rfl, rfl⟩

/-- Witness for C1: with only `emirates_id` processed the stage fails, the
missing list is exactly the other two required types, and the financial
stage is not invoked. -/
theorem document_failure_decision_witness :
    documentStageFails incompleteDocResults ∧
    (orchestratorFromDoc incompleteDocResults samplePipelineInput
      CollabOutcome.unavailable sampleCareerResult).finalDecision.status =
      "documents_required" ∧
    (orchestratorFromDoc incompleteDocResults samplePipelineInput
      CollabOutcome.unavailable sampleCareerResult).finalDecision.approvedAmountValue = 0 ∧
    (orchestratorFromDoc incompleteDocResults samplePipelineInput
      CollabOutcome.unavailable sampleCareerResult).finalDecision.missingDocuments =
      some ["bank_statement", "utility_bill"] ∧
    (orchestratorFromDoc incompleteDocResults samplePipelineInput
      CollabOutcome.unavailable sampleCareerResult).financialInvoked = false := by
  have hfail : documentStageFails incompleteDocResults := by
    unfold documentStageFails missingDocumentsOf requiredDocumentTypes incompleteDocResults
    decide
  have h := document_failure_decision incompleteDocResults samplePipelineInput
    CollabOutcome.unavailable sampleCareerResult hfail
  refine ⟨hfail, h.1, h.2.1, ?_, h.2.2.2.1⟩
  rw [h.2.2.1]
  decide

/-- Counterexample to claim C2 as stated: with no submitted documents the
empty-set fallback of `_rule_based_result` (line 80) substitutes
`["emirates_id", "bank_statement"]`, so the orchestrator computes
`missing = ["utility_bill"]`, whereas the set difference
required − submitted is all three required types. -/
theorem document_completeness_counterexample :
    submittedTypes ([] : List DocInput) = [] ∧
    missingDocumentsOf (documentRuleBasedResult ([] : List DocInput)).documentsProcessed =
      ["utility_bill"] ∧
    missingDocumentsOf (submittedTypes ([] : List DocInput)) = requiredDocumentTypes ∧
    (["utility_bill"] : List String) ≠ requiredDocumentTypes :=
  ⟨rfl, by decide, by decide, by decide⟩

/-- Claim C2 (amended): whenever at least one submitted document carries a
non-empty type, the missing-documents list computed by the orchestrator is
exactly the set difference of the required document types and the
submitted (lowercased) document types; on an empty submission the stage's
fallback substitutes `["emirates_id", "bank_statement"]`, so the missing
list is `["utility_bill"]`; and whenever the missing list is empty and the
document stage reports the submitted documents valid, the pipeline does
not short-circuit (the financial and career stages run). -/
theorem document_completeness_spec (docs : List DocInput) (inp : PipelineInput)
    (collab : CollabOutcome) (career : CareerResult) :
    (submittedTypes docs ≠ [] →
      ∀ d, d ∈ missingDocumentsOf (documentRuleBasedResult docs).documentsProcessed ↔
        (d ∈ requiredDocumentTypes ∧ d ∉ submittedTypes docs)) ∧
    (submittedTypes docs = [] →
      missingDocumentsOf (documentRuleBasedResult docs).documentsProcessed =
        ["utility_bill"]) ∧
    (missingDocumentsOf (documentRuleBasedResult docs).documentsProcessed = [] →
      (documentRuleBasedResult docs).documentsValid = true →
      (pipelineRun docs inp collab career).financialInvoked = true ∧
      (pipelineRun docs inp collab career).careerInvoked = true) := by
  refine ⟨?_, ?_, ?_⟩
  · intro hne d
    have hded : (submittedTypes docs).dedup ≠ [] := by
      simpa [List.dedup_eq_nil] using hne
    have hproc : (documentRuleBasedResult docs).documentsProcessed =
        (submittedTypes docs).dedup := by
      simp [documentRuleBasedResult, hded]
    rw [hproc]
    simp [missingDocumentsOf, List.mem_filter, List.mem_dedup]
  · intro hz
    have hproc : (documentRuleBasedResult docs).documentsProcessed =
        ["emirates_id", "bank_statement"] := by
      simp [documentRuleBasedResult, hz]
    rw [hproc]
    decide
  · intro hmiss hvalid
    have hnot : ¬ documentStageFails (documentRuleBasedResult docs) := by
      unfold documentStageFails
      push_neg
      refine ⟨?_, ?_, ?_⟩
      · simp [documentRuleBasedResult]
      · simp [hvalid]
      · simp [hmiss]
    unfold pipelineRun orchestratorFromDoc
    rw [if_neg hnot]
    exact ⟨rfl, rfl⟩

/-- Witness for the amended C2: with all three required types submitted
(one in mixed case) the set-difference reading holds, the missing list is
empty, and the financial stage is invoked. -/
theorem document_completeness_spec_witness :
    submittedTypes sampleDocs ≠ [] ∧
    ("utility_bill" ∈ missingDocumentsOf
        (documentRuleBasedResult sampleDocs).documentsProcessed ↔
      ("utility_bill" ∈ requiredDocumentTypes ∧
        "utility_bill" ∉ submittedTypes sampleDocs)) ∧
    missingDocumentsOf (documentRuleBasedResult sampleDocs).documentsProcessed = [] ∧
    (pipelineRun sampleDocs samplePipelineInput CollabOutcome.unavailable
      sampleCareerResult).financialInvoked = true := by
  have hne : submittedTypes sampleDocs ≠ [] := by decide
  have hmiss : missingDocumentsOf (documentRuleBasedResult sampleDocs).documentsProcessed = [] := by
    decide
  have hvalid : (documentRuleBasedResult sampleDocs).documentsValid = true := by decide
  have h := document_completeness_spec sampleDocs samplePipelineInput
    CollabOutcome.unavailable sampleCareerResult
  exact ⟨hne, h.1 hne "utility_bill", hmiss, (h.2.2 hmiss hvalid).1⟩

/-- Amounts of 0 propagate: when the financial stage's recommended amount
is 0, every branch of `_make_final_decision` yields approved amount 0 and
duration 0. -/
theorem makeFinalDecision_zero_amount (financial : FinResult) (career : CareerResult)
    (h : financial.recommendedSupportAmount = 0) :
    (makeFinalDecision financial career).approvedAmountValue = 0 ∧
    (makeFinalDecision financial career).durationMonthsValue = 0 := by
  simp only [makeFinalDecision, FinalDecision.approvedAmountValue,
    FinalDecision.durationMonthsValue]
  split_ifs <;> simp_all

/-- Claim C10: for every application with zero monthly salary processed
with the enrichment collaborator unavailable (and a nonnegative requested
amount), the financial stage's recommended support amount is 0, and the
final decision's approved amount and duration are 0 regardless of the
status branch taken. -/
theorem zero_salary_zero_support (inp : PipelineInput) (career : CareerResult)
    (hsal : inp.monthlySalary = 0) (hreq : 0 ≤ inp.amountRequested) :
    (financialProcess inp CollabOutcome.unavailable).recommendedSupportAmount = 0 ∧
    (makeFinalDecision (financialProcess inp CollabOutcome.unavailable) career).approvedAmountValue = 0 ∧
    (makeFinalDecision (financialProcess inp CollabOutcome.unavailable) career).durationMonthsValue = 0 := by
  have hfin : financialProcess inp CollabOutcome.unavailable = ruleBasedAssessment inp := rfl
  have hamt : (financialProcess inp CollabOutcome.unavailable).recommendedSupportAmount = 0 := by
    rw [hfin, ruleBasedAssessment_amount_eq, hsal]
    simpa using min_eq_right hreq
  have hz := makeFinalDecision_zero_amount (financialProcess inp CollabOutcome.unavailable)
    career hamt
  exact ⟨hamt, hz.1, hz.2⟩

/-- Witness for C10 at the zero-salary sample input. -/
theorem zero_salary_zero_support_witness :
    (financialProcess samplePipelineInput CollabOutcome.unavailable).recommendedSupportAmount = 0 ∧
    (makeFinalDecision (financialProcess samplePipelineInput CollabOutcome.unavailable)
      sampleCareerResult).approvedAmountValue = 0 ∧
    (makeFinalDecision (financialProcess samplePipelineInput CollabOutcome.unavailable)
      sampleCareerResult).durationMonthsValue = 0 :=
  zero_salary_zero_support samplePipelineInput sampleCareerResult rfl
    (by norm_num [samplePipelineInput])

end Pipeline
